import Mathlib

/-!
Shallow embedding of kixxy.py (call-log analytics) and verification of the
specification's claims about it.

The Python source is a single file: a record normalizer (parse_duration,
parse_date, get_area_code), a single-pass aggregation engine (analyze_calls),
and a reporting pass (print_report) whose derived views (conversion funnel,
weekly phone-time rollup, ratio computations) are embedded here as well.

Conventions of the embedding:
* Python strings are Lean `String` / `List Char`; the handful of builtin string
  operations the source uses (int(), str.split(':'), str.strip('"'),
  re.sub(r'\D', ...)) are modelled explicitly as executable functions.
* Python ints are `Int` (they are unbounded, as in Python); counters are `Nat`.
* A Python expression that can raise (int() on a malformed field, division by
  zero) is modelled in `Except Unit` / by an explicit zero test.
* datetime values are a (year, month, day, hour, minute) record; comparisons
  and .timestamp() are modelled through a days-from-civil encoding in seconds
  at a fixed UTC offset (only differences of timestamps are ever used).
* defaultdicts of counters are modelled as total functions with the
  zero-initialized accumulator as default; the iteration order of the
  agent-session dictionaries (which the weekly rollup traverses) is kept
  explicitly as insertion-ordered key lists.
-/

namespace Kixxy

/-! ## Character-level primitives -/

/-- Decimal digit test on a character (matches Python str.isdigit for ASCII
digits, which is all re and int() need here). -/
def digitB (c : Char) : Bool := decide (48 ≤ c.toNat ∧ c.toNat ≤ 57)

/-- Whitespace test used by Python int() when stripping its argument. -/
def spaceB (c : Char) : Bool :=
  decide (c.toNat = 32 ∨ c.toNat = 9 ∨ c.toNat = 10 ∨ c.toNat = 13 ∨
          c.toNat = 11 ∨ c.toNat = 12)

/-- Numeric value of a digit character. -/
def digitVal (c : Char) : Nat := c.toNat - 48

/-- Value of a digit string, most significant digit first. -/
def digitsVal (cs : List Char) : Nat := cs.foldl (fun a c => a * 10 + digitVal c) 0

/-- Strip leading and trailing characters satisfying p (Python str.strip). -/
def stripEnds (p : Char → Bool) (cs : List Char) : List Char :=
  ((cs.dropWhile p).reverse.dropWhile p).reverse

/-- Model of Python int() on a decimal string: surrounding whitespace is
stripped, then an optional single sign is followed by one or more digits;
anything else raises ValueError (modelled as none). -/
def pyIntChars (cs : List Char) : Option Int :=
  let t := stripEnds spaceB cs
  match t with
  | '-' :: rest =>
      if rest ≠ [] ∧ rest.all digitB then some (-(digitsVal rest : Int)) else none
  | '+' :: rest =>
      if rest ≠ [] ∧ rest.all digitB then some (digitsVal rest : Int) else none
  | rest =>
      if rest ≠ [] ∧ rest.all digitB then some (digitsVal rest : Int) else none

/-- Model of Python str.split(':'): split at every colon, keeping empty
pieces, so the result always has (number of colons + 1) pieces. -/
def splitColon : List Char → List (List Char)
  | [] => [[]]
  | c :: rest =>
      let r := splitColon rest
      if c = ':' then [] :: r
      else
        match r with
        | [] => [[c]]
        | h :: t => (c :: h) :: t

/-! ## parse_duration and format_duration (kixxy.py lines 8-26) -/

/-- Lift the int() model into the exception monad: a field that fails to
parse raises ValueError. -/
def intOf (cs : List Char) : Except Unit Int :=
  match pyIntChars cs with
  | some n => Except.ok n
  | none => Except.error ()

/-- Body of parse_duration on the character list of its argument.
Mirrors kixxy.py lines 8-17: empty or "0" gives 0; two colon-fields give
minutes*60+seconds; three give hours*3600+minutes*60+seconds; any other
number of fields falls through to 0.  int() on a malformed field raises. -/
def parseDurationChars (cs : List Char) : Except Unit Int :=
  if cs = [] ∨ cs = ['0'] then Except.ok 0
  else
    match splitColon cs with
    | [m, s] => do
        let mv ← intOf m
        let sv ← intOf s
        pure (mv * 60 + sv)
    | [h, m, s] => do
        let hv ← intOf h
        let mv ← intOf m
        let sv ← intOf s
        pure (hv * 3600 + mv * 60 + sv)
    | _ => Except.ok 0

/-- parse_duration (kixxy.py lines 8-17). -/
def parse_duration (s : String) : Except Unit Int := parseDurationChars s.data

/-- Decimal rendering of a natural number, as Python str() produces. -/
def natChars (n : Nat) : List Char :=
  if h : n < 10 then [Char.ofNat (48 + n)]
  else natChars (n / 10) ++ [Char.ofNat (48 + n % 10)]
  decreasing_by
    have : 10 ≤ n := Nat.le_of_not_lt h
    omega

/-- Two-digit zero-padded rendering, as the Python format spec 02d produces
for values below 100 (minutes and seconds here are always below 60). -/
def pad2 (n : Nat) : List Char :=
  if n < 10 then '0' :: natChars n else natChars n

/-- format_duration (kixxy.py lines 19-26): H:MM:SS when hours are positive,
else M:SS. -/
def format_duration (seconds : Nat) : String :=
  let hours := seconds / 3600
  let minutes := (seconds % 3600) / 60
  let secs := seconds % 60
  if hours > 0 then ⟨natChars hours ++ ':' :: (pad2 minutes ++ ':' :: pad2 secs)⟩
  else ⟨natChars minutes ++ ':' :: pad2 secs⟩

/-! ## get_area_code (kixxy.py lines 35-42) -/

/-- get_area_code: keep only digits; with at least ten of them, drop one
leading country-code 1 and take three digits, else the sentinel. -/
def get_area_code (phone : String) : String :=
  let digits := phone.data.filter digitB
  if digits.length ≥ 10 then
    if digits.head? = some '1' then ⟨(digits.drop 1).take 3⟩
    else ⟨digits.take 3⟩
  else "Unknown"

/-! ## Dates and timestamps (kixxy.py lines 28-33 and datetime arithmetic) -/

/-- Calendar day, the value behind the Python date keys produced by
strftime with format Y-m-d. -/
structure Day where
  year : Nat
  month : Nat
  day : Nat
deriving DecidableEq, Repr

/-- Minute-resolution timestamp, the value of a parsed Python datetime. -/
structure Timestamp where
  year : Nat
  month : Nat
  day : Nat
  hour : Nat
  minute : Nat
deriving DecidableEq, Repr

/-- Days since 1970-01-01 of a civil date (proleptic Gregorian), the standard
days-from-civil computation; datetime ordering and timestamp() differences
reduce to it. -/
def daysFromCivil (y m d : Int) : Int :=
  let y2 : Int := if m ≤ 2 then y - 1 else y
  let era : Int := (if 0 ≤ y2 then y2 else y2 - 399) / 400
  let yoe : Int := y2 - era * 400
  let mp : Int := if 2 < m then m - 3 else m + 9
  let doy : Int := (153 * mp + 2) / 5 + d - 1
  let doe : Int := yoe * 365 + yoe / 4 - yoe / 100 + doy
  era * 146097 + doe - 719468

/-- Day number of a calendar day. -/
def Day.num (d : Day) : Int := daysFromCivil d.year d.month d.day

/-- Timestamp in seconds at a fixed UTC offset; Python datetime comparison
and .timestamp() subtraction agree with comparison and subtraction of this
value on all datetimes (minute resolution, valid field ranges). -/
def Timestamp.sec (t : Timestamp) : Int :=
  daysFromCivil t.year t.month t.day * 86400 + t.hour * 3600 + t.minute * 60

/-- Calendar day of a timestamp (strftime Y-m-d key). -/
def Timestamp.date (t : Timestamp) : Day := ⟨t.year, t.month, t.day⟩

/-- Python date.weekday(): Monday is 0 through Sunday 6.  1970-01-01 was a
Thursday (3). -/
def Day.weekday (d : Day) : Int := (d.num + 3) % 7

/-- Day name as strftime with format A renders it, from the weekday index. -/
def weekdayName (w : Int) : String :=
  if w = 0 then "Monday" else if w = 1 then "Tuesday"
  else if w = 2 then "Wednesday" else if w = 3 then "Thursday"
  else if w = 4 then "Friday" else if w = 5 then "Saturday" else "Sunday"

/-- Day number of the Monday that starts the week of d (kixxy.py line 283:
the date minus weekday() days). -/
def Day.mondayNum (d : Day) : Int := d.num - d.weekday

/-- Leap-year test of the Gregorian calendar. -/
def isLeap (y : Nat) : Bool := y % 4 = 0 ∧ (y % 100 ≠ 0 ∨ y % 400 = 0)

/-- Number of days in a month, as Python datetime validates them. -/
def daysInMonth (y m : Nat) : Nat :=
  if m = 2 then (if isLeap y then 29 else 28)
  else if m = 4 ∨ m = 6 ∨ m = 9 ∨ m = 11 then 30
  else 31

/-- Leading run of digits of a character list, with the remainder. -/
def takeDigits : List Char → List Char × List Char
  | [] => ([], [])
  | c :: rest =>
      if digitB c then
        let (d, r) := takeDigits rest
        (c :: d, r)
      else ([], c :: rest)

/-- Model of datetime.strptime with the fixed format used by parse_date
(month/day/4-digit-year, comma, blank, 12-hour clock hour:minute, blank,
AM or PM, case-insensitive), including the field-range and day-of-month
validation strptime and the datetime constructor perform.  Any mismatch
yields none. -/
def strptimeChars (cs : List Char) : Option Timestamp := do
  let (mo, r1) := takeDigits cs
  guard (1 ≤ mo.length ∧ mo.length ≤ 2)
  let mv := digitsVal mo
  guard (1 ≤ mv ∧ mv ≤ 12)
  let r2 ← match r1 with | '/' :: r => some r | _ => none
  let (da, r3) := takeDigits r2
  guard (1 ≤ da.length ∧ da.length ≤ 2)
  let dv := digitsVal da
  let r4 ← match r3 with | '/' :: r => some r | _ => none
  let (yr, r5) := takeDigits r4
  guard (yr.length = 4)
  let yv := digitsVal yr
  guard (1 ≤ yv)
  guard (1 ≤ dv ∧ dv ≤ daysInMonth yv mv)
  let r6 ← match r5 with | ',' :: r => some r | _ => none
  let r7 := r6.dropWhile spaceB
  guard (r7.length ≠ r6.length)
  let (ho, r8) := takeDigits r7
  guard (1 ≤ ho.length ∧ ho.length ≤ 2)
  let hv := digitsVal ho
  guard (1 ≤ hv ∧ hv ≤ 12)
  let r9 ← match r8 with | ':' :: r => some r | _ => none
  let (mi, r10) := takeDigits r9
  guard (1 ≤ mi.length ∧ mi.length ≤ 2)
  let miv := digitsVal mi
  guard (miv ≤ 59)
  let r11 := r10.dropWhile spaceB
  guard (r11.length ≠ r10.length)
  let isPM ← match r11 with
    | p :: m :: [] =>
        if (p = 'A' ∨ p = 'a') ∧ (m = 'M' ∨ m = 'm') then some false
        else if (p = 'P' ∨ p = 'p') ∧ (m = 'M' ∨ m = 'm') then some true
        else none
    | _ => none
  let h24 := if isPM then (if hv = 12 then 12 else hv + 12)
             else (if hv = 12 then 0 else hv)
  pure ⟨yv, mv, dv, h24, miv⟩

/-- parse_date (kixxy.py lines 28-33): strip surrounding double quotes, then
strptime with the fixed format; any failure yields none. -/
def parse_date (s : String) : Option Timestamp :=
  strptimeChars (stripEnds (fun c => c = '"') s.data)

/-! ## Input records and derived facets (kixxy.py lines 75-88) -/

/-- One input row, with the columns analyze_calls reads. -/
structure Row where
  agent : String
  disposition : String
  duration : String
  callType : String
  status : String
  source : String
  source_link : String
  to_number : String
  date : String
  crm_link : String
  crm_contact_id : String
deriving DecidableEq, Repr

/-- Disposition after the or-default (line 77): empty becomes Unknown. -/
def dispOf (r : Row) : String := if r.disposition = "" then "Unknown" else r.disposition

/-- Source after the or-default (line 81). -/
def sourceOf (r : Row) : String := if r.source = "" then "Unknown" else r.source

/-- Campaign after the or-default (line 82). -/
def campaignOf (r : Row) : String := if r.source_link = "" then "No Campaign" else r.source_link

/-- is_interested (line 86). -/
def isInterested (r : Row) : Bool := decide (dispOf r = "Interested")

/-- is_voicemail (line 87). -/
def isVoicemail (r : Row) : Bool := decide (dispOf r = "Voicemail")

/-- is_live_answer (line 88). -/
def isLiveAnswer (r : Row) : Bool :=
  decide (r.status = "Answered" ∧
    dispOf r ∉ (["Voicemail", "No Call Outcome", "Bad Number"] : List String))

/-! ## Accumulators (kixxy.py lines 46-71) -/

/-- Per-agent accumulator (line 46). -/
structure AgentAcc where
  total_calls : Nat
  total_duration : Int
  dispositions : String → Nat
  call_types : String → Nat
  statuses : String → Nat

/-- Zero-initialized agent accumulator (defaultdict default). -/
def AgentAcc.init : AgentAcc := ⟨0, 0, fun _ => 0, fun _ => 0, fun _ => 0⟩

/-- Per-disposition accumulator (line 48). -/
structure DispAcc where
  count : Nat
  total_duration : Int

def DispAcc.init : DispAcc := ⟨0, 0⟩

/-- overall_stats (line 49). -/
structure OverallAcc where
  total_calls : Nat
  total_duration : Int
  answered : Nat
  missed : Nat
  incoming : Nat
  outgoing : Nat
  interested : Nat

def OverallAcc.init : OverallAcc := ⟨0, 0, 0, 0, 0, 0, 0⟩

/-- Per-source accumulator (line 51). -/
structure SourceAcc where
  total : Nat
  interested : Nat
  answered : Nat
  voicemail : Nat

def SourceAcc.init : SourceAcc := ⟨0, 0, 0, 0⟩

/-- Hour-of-day and day-of-week accumulator (lines 54-55). -/
structure TimeAcc where
  total : Nat
  answered : Nat
  interested : Nat
  live_answer : Nat

def TimeAcc.init : TimeAcc := ⟨0, 0, 0, 0⟩

/-- Per-campaign accumulator (line 56). -/
structure CampaignAcc where
  total : Nat
  interested : Nat
  answered : Nat
  voicemail : Nat
  not_interested : Nat
  duration : Int

def CampaignAcc.init : CampaignAcc := ⟨0, 0, 0, 0, 0, 0⟩

/-- Per-area-code accumulator (line 58). -/
structure AreaAcc where
  total : Nat
  live_answer : Nat
  voicemail : Nat

def AreaAcc.init : AreaAcc := ⟨0, 0, 0⟩

/-- Per-calendar-day accumulator (line 61). -/
structure DailyAcc where
  total : Nat
  interested : Nat
  duration : Int

def DailyAcc.init : DailyAcc := ⟨0, 0, 0⟩

/-- Agent-day session entry (line 71). -/
structure Session where
  first_call : Option Timestamp
  last_call : Option Timestamp
  last_call_duration : Int
  talk_time : Int

def Session.init : Session := ⟨none, none, 0, 0⟩

/-- One interested-lead entry (lines 170-178). -/
structure Lead where
  date : String
  to_number : String
  crm_link : String
  crm_contact_id : String
  duration : String
  campaign : String
deriving DecidableEq, Repr

/-- The state analyze_calls accumulates and returns (lines 200-214).
Dictionary-valued tables are total functions with the zero accumulator as
defaultdict default; agent_keys and day_keys record the insertion order of
the agent-day session dictionaries, which print_report iterates. -/
structure Snapshot where
  agents : String → AgentAcc
  dispositions : String → DispAcc
  overall : OverallAcc
  sources : String → SourceAcc
  hourly : Nat → TimeAcc
  day_of_week : String → TimeAcc
  campaigns : String → CampaignAcc
  area_codes : String → AreaAcc
  daily : Day → DailyAcc
  min_date : Option Timestamp
  max_date : Option Timestamp
  interested_leads : List Lead
  sessions : String → Day → Session
  agent_keys : List String
  day_keys : String → List Day

/-- Empty snapshot: the state before the first record. -/
def Snapshot.init : Snapshot :=
  { agents := fun _ => AgentAcc.init
    dispositions := fun _ => DispAcc.init
    overall := OverallAcc.init
    sources := fun _ => SourceAcc.init
    hourly := fun _ => TimeAcc.init
    day_of_week := fun _ => TimeAcc.init
    campaigns := fun _ => CampaignAcc.init
    area_codes := fun _ => AreaAcc.init
    daily := fun _ => DailyAcc.init
    min_date := none
    max_date := none
    interested_leads := []
    sessions := fun _ _ => Session.init
    agent_keys := []
    day_keys := fun _ => [] }

/-! ## The per-record update (kixxy.py lines 75-198) -/

/-- Increment a string-keyed counter table at one key. -/
def bump (m : String → Nat) (k : String) : String → Nat :=
  fun x => if x = k then m x + 1 else m x

/-- Session update for one timestamped call (lines 161-167): replace first
on strictly earlier, replace last (and re-capture its duration) on strictly
later, and always add the duration to the talk time. -/
def updSession (sess : Session) (t : Timestamp) (dur : Int) : Session :=
  let first := match sess.first_call with
    | none => some t
    | some f => if t.sec < f.sec then some t else some f
  let lastPair : Option Timestamp × Int := match sess.last_call with
    | none => (some t, dur)
    | some l => if l.sec < t.sec then (some t, dur) else (some l, sess.last_call_duration)
  { first_call := first
    last_call := lastPair.1
    last_call_duration := lastPair.2
    talk_time := sess.talk_time + dur }

/-- Date-range minimum update (lines 131-132). -/
def minUpd (o : Option Timestamp) (t : Timestamp) : Option Timestamp :=
  match o with
  | none => some t
  | some m => if t.sec < m.sec then some t else some m

/-- Date-range maximum update (lines 133-134). -/
def maxUpd (o : Option Timestamp) (t : Timestamp) : Option Timestamp :=
  match o with
  | none => some t
  | some m => if m.sec < t.sec then some t else some m

/-- The body of the per-row loop of analyze_calls (lines 75-198), given the
already-parsed duration.  Each field lists its own update; time-based tables
change only when the timestamp parses, mirroring the if date_obj block. -/
def step (s : Snapshot) (r : Row) (dur : Int) : Snapshot :=
  let disp := dispOf r
  let src := sourceOf r
  let camp := campaignOf r
  let ac := get_area_code r.to_number
  let tOpt := parse_date r.date
  { agents := fun a => if a = r.agent then
      { total_calls := (s.agents a).total_calls + 1
        total_duration := (s.agents a).total_duration + dur
        dispositions := bump (s.agents a).dispositions disp
        call_types := bump (s.agents a).call_types r.callType
        statuses := bump (s.agents a).statuses r.status }
      else s.agents a
    dispositions := fun k => if k = disp then
      { count := (s.dispositions k).count + 1
        total_duration := (s.dispositions k).total_duration + dur }
      else s.dispositions k
    overall :=
      { total_calls := s.overall.total_calls + 1
        total_duration := s.overall.total_duration + dur
        answered := s.overall.answered + (if r.status = "Answered" then 1 else 0)
        missed := s.overall.missed + (if r.status = "Answered" then 0 else 1)
        incoming := s.overall.incoming + (if r.callType = "Incoming" then 1 else 0)
        outgoing := s.overall.outgoing + (if r.callType = "Incoming" then 0 else 1)
        interested := s.overall.interested + (if isInterested r then 1 else 0) }
    sources := fun k => if k = src then
      { total := (s.sources k).total + 1
        interested := (s.sources k).interested + (if isInterested r then 1 else 0)
        answered := (s.sources k).answered + (if r.status = "Answered" then 1 else 0)
        voicemail := (s.sources k).voicemail + (if isVoicemail r then 1 else 0) }
      else s.sources k
    hourly := match tOpt with
      | none => s.hourly
      | some t => fun h => if h = t.hour then
          { total := (s.hourly h).total + 1
            answered := (s.hourly h).answered + (if r.status = "Answered" then 1 else 0)
            interested := (s.hourly h).interested + (if isInterested r then 1 else 0)
            live_answer := (s.hourly h).live_answer + (if isLiveAnswer r then 1 else 0) }
          else s.hourly h
    day_of_week := match tOpt with
      | none => s.day_of_week
      | some t => fun k => if k = weekdayName t.date.weekday then
          { total := (s.day_of_week k).total + 1
            answered := (s.day_of_week k).answered + (if r.status = "Answered" then 1 else 0)
            interested := (s.day_of_week k).interested + (if isInterested r then 1 else 0)
            live_answer := (s.day_of_week k).live_answer + (if isLiveAnswer r then 1 else 0) }
          else s.day_of_week k
    campaigns := fun k => if k = camp then
      { total := (s.campaigns k).total + 1
        interested := (s.campaigns k).interested + (if isInterested r then 1 else 0)
        answered := (s.campaigns k).answered + (if r.status = "Answered" then 1 else 0)
        voicemail := (s.campaigns k).voicemail + (if isVoicemail r then 1 else 0)
        not_interested := (s.campaigns k).not_interested + (if disp = "Not Interested" then 1 else 0)
        duration := (s.campaigns k).duration + dur }
      else s.campaigns k
    area_codes := fun k => if k = ac then
      { total := (s.area_codes k).total + 1
        live_answer := (s.area_codes k).live_answer + (if isLiveAnswer r then 1 else 0)
        voicemail := (s.area_codes k).voicemail + (if isVoicemail r then 1 else 0) }
      else s.area_codes k
    daily := match tOpt with
      | none => s.daily
      | some t => fun d => if d = t.date then
          { total := (s.daily d).total + 1
            interested := (s.daily d).interested + (if isInterested r then 1 else 0)
            duration := (s.daily d).duration + dur }
          else s.daily d
    min_date := match tOpt with
      | none => s.min_date
      | some t => minUpd s.min_date t
    max_date := match tOpt with
      | none => s.max_date
      | some t => maxUpd s.max_date t
    interested_leads := if isInterested r then
        s.interested_leads ++ [⟨r.date, r.to_number, r.crm_link, r.crm_contact_id, r.duration, camp⟩]
      else s.interested_leads
    sessions := match tOpt with
      | none => s.sessions
      | some t => fun a d => if a = r.agent ∧ d = t.date then
          updSession (s.sessions a d) t dur else s.sessions a d
    agent_keys := match tOpt with
      | none => s.agent_keys
      | some _ => if r.agent ∈ s.agent_keys then s.agent_keys else s.agent_keys ++ [r.agent]
    day_keys := match tOpt with
      | none => s.day_keys
      | some t => fun a => if a = r.agent then
          (if t.date ∈ s.day_keys r.agent then s.day_keys r.agent
           else s.day_keys r.agent ++ [t.date])
          else s.day_keys a }

/-- Parsed duration of a row, with 0 standing in for the raise case (only
used on rows whose duration in fact parses). -/
def durOf (r : Row) : Int :=
  match parse_duration r.duration with
  | Except.ok n => n
  | Except.error _ => 0

/-- Pure per-row update using the row's own parsed duration. -/
def stepD (s : Snapshot) (r : Row) : Snapshot := step s r (durOf r)

/-- Pure fold of the whole stream. -/
def processAll (rows : List Row) : Snapshot := rows.foldl stepD Snapshot.init

/-- One loop iteration including the fallible duration parse (line 78):
a ValueError from int() aborts the run. -/
def processRow (s : Snapshot) (r : Row) : Except Unit Snapshot := do
  let d ← parse_duration r.duration
  pure (step s r d)

/-- analyze_calls (kixxy.py lines 44-214) on an in-memory record stream. -/
def analyze_calls (rows : List Row) : Except Unit Snapshot :=
  rows.foldlM processRow Snapshot.init

/-! ## Report-side derived views (print_report, kixxy.py lines 216-516) -/

/-- Python division, which raises ZeroDivisionError on a zero denominator. -/
def pyDiv (a b : ℚ) : Except Unit ℚ := if b = 0 then Except.error () else Except.ok (a / b)

/-- The overall-summary percentage lines (lines 248-251): answered, missed,
outgoing and incoming each divided by total_calls with no zero guard. -/
def overallSummaryPercents (s : Snapshot) : Except Unit (ℚ × ℚ × ℚ × ℚ) := do
  let t : ℚ := s.overall.total_calls
  let a ← pyDiv (s.overall.answered : ℚ) t
  let m ← pyDiv (s.overall.missed : ℚ) t
  let o ← pyDiv (s.overall.outgoing : ℚ) t
  let i ← pyDiv (s.overall.incoming : ℚ) t
  pure (a * 100, m * 100, o * 100, i * 100)

/-- Overall conversion rate (line 337): interested over total_calls times
100, again with no zero guard. -/
def conversionRate (s : Snapshot) : Except Unit ℚ := do
  let q ← pyDiv (s.overall.interested : ℚ) (s.overall.total_calls : ℚ)
  pure (q * 100)

/-- Per-source conversion rate as the source-effectiveness table computes it
(line 376), with its explicit zero guard. -/
def sourceConvRate (s : Snapshot) (k : String) : ℚ :=
  if (s.sources k).total > 0 then
    ((s.sources k).interested : ℚ) / ((s.sources k).total : ℚ) * 100
  else 0

/-- Conversion funnel (lines 397-401): connected is the answered count, the
live-conversation count subtracts the Voicemail, Bad Number and No Call
Outcome disposition counts from it, interested is the overall count. -/
def funnel (s : Snapshot) : Int × Int × Int :=
  let answered : Int := s.overall.answered
  let not_voicemail : Int := answered - (s.dispositions "Voicemail").count
  let not_bad : Int := not_voicemail - (s.dispositions "Bad Number").count
                        - (s.dispositions "No Call Outcome").count
  (answered, not_bad, (s.overall.interested : Int))

/-- Session span as print_report computes it under the first-and-last guard
(lines 262-263 and 466-471): last call start plus its duration minus first
call start, in seconds. -/
def Session.span (sess : Session) : Option Int :=
  match sess.first_call, sess.last_call with
  | some f, some l => some (l.sec + sess.last_call_duration - f.sec)
  | _, _ => none

/-- Weekly phone-time bucket (line 273). -/
structure WeekAcc where
  phone_time : Int
  talk_time : Int
  days_worked : List Day

def WeekAcc.init : WeekAcc := ⟨0, 0, []⟩

/-- The agent-day pairs of the session table in the order print_report
iterates them. -/
def sessionPairs (s : Snapshot) : List (String × Day) :=
  s.agent_keys.flatMap fun a => (s.day_keys a).map fun d => (a, d)

/-- One iteration of the weekly-rollup loop (lines 274-290): sessions with
both endpoints set are skipped on Saturday and Sunday, otherwise their span
and talk time accumulate in the bucket of the Monday of their week and the
day joins that bucket's days-worked set. -/
def wstep (s : Snapshot) (w : Int → WeekAcc) (p : String × Day) : Int → WeekAcc :=
  let sess := s.sessions p.1 p.2
  match sess.first_call, sess.last_call with
  | some f, some l =>
      if p.2.weekday ≥ 5 then w
      else
        let wk := p.2.mondayNum
        let span := l.sec + sess.last_call_duration - f.sec
        fun k => if k = wk then
          { phone_time := (w k).phone_time + span
            talk_time := (w k).talk_time + sess.talk_time
            days_worked := if p.2 ∈ (w k).days_worked then (w k).days_worked
                           else (w k).days_worked ++ [p.2] }
          else w k
  | _, _ => w

/-- The weekly phone-time rollup (lines 273-290). -/
def weeklyRollup (s : Snapshot) : Int → WeekAcc :=
  (sessionPairs s).foldl (wstep s) (fun _ => WeekAcc.init)

/-! ## Auxiliary definitions used only to state properties -/

/-- A row whose duration field parses without a ValueError. -/
def durOk (r : Row) : Bool :=
  match parse_duration r.duration with
  | Except.ok _ => true
  | Except.error _ => false

/-- The lead entry analyze_calls appends for an interested row. -/
def leadOf (r : Row) : Lead :=
  ⟨r.date, r.to_number, r.crm_link, r.crm_contact_id, r.duration, campaignOf r⟩

/-- Value shown by the Python format spec .2f, in hundredths. -/
def fmt2 (q : ℚ) : ℤ := round (q * 100)

/-- First scenario row: Agent A, Interested, 2:00, answered outgoing call on
SourceX at 10:00 AM (timestamp written in the format parse_date accepts). -/
def rowA1 : Row :=
  ⟨"Agent A", "Interested", "2:00", "Outgoing", "Answered", "SourceX", "", "",
      "01/01/2024, 10:00 AM", "", ""⟩

/-- Second scenario row: Agent A, Voicemail, 0:45, at 10:05 AM. -/
def rowA2 : Row :=
  ⟨"Agent A", "Voicemail", "0:45", "Outgoing", "Answered", "SourceX", "", "",
      "01/01/2024, 10:05 AM", "", ""⟩

/-- Third scenario row: Agent B, Not Interested, 1:30, at 2:00 PM. -/
def rowB : Row :=
  ⟨"Agent B", "Not Interested", "1:30", "Incoming", "Answered", "SourceY", "", "",
      "01/01/2024, 02:00 PM", "", ""⟩

/-- The three rows of the end-to-end scenario, with timestamps written in
the format parse_date accepts. -/
def scenarioRows : List Row := [rowA1, rowA2, rowB]

/-- The snapshot of the end-to-end scenario. -/
def scenarioSnapshot : Snapshot := processAll scenarioRows

/-- A row whose date string does not parse (used to witness the handling of
unparseable timestamps). -/
def rowNoDate : Row :=
  ⟨"A", "Not Interested", "0:10", "Outgoing", "Answered", "S", "", "",
      "not a date", "", ""⟩

/-- The same three rows with the timestamp strings exactly as the scenario
text gives them (no comma, and a 24-hour value with PM on the third). -/
def scenarioRowsLiteral : List Row :=
  [⟨"Agent A", "Interested", "2:00", "Outgoing", "Answered", "SourceX", "", "",
      "01/01/2024 10:00 AM", "", ""⟩,
   ⟨"Agent A", "Voicemail", "0:45", "Outgoing", "Answered", "SourceX", "", "",
      "01/01/2024 10:05 AM", "", ""⟩,
   ⟨"Agent B", "Not Interested", "1:30", "Incoming", "Answered", "SourceY", "", "",
      "01/01/2024 14:00 PM", "", ""⟩]

/-! # Theorems -/

/-! ## Bridging analyze_calls and the pure fold -/

theorem processRow_of_ok (s : Snapshot) (r : Row) (d : Int)
    (hd : parse_duration r.duration = Except.ok d) :
    processRow s r = Except.ok (step s r d) := by
  unfold processRow; rw [hd]; rfl

theorem processRow_of_error (s : Snapshot) (r : Row) (e : Unit)
    (hd : parse_duration r.duration = Except.error e) :
    processRow s r = Except.error e := by
  unfold processRow; rw [hd]; rfl

theorem foldlM_processRow_ok (rows : List Row) :
    ∀ s : Snapshot, (∀ r ∈ rows, durOk r = true) →
      List.foldlM processRow s rows = Except.ok (rows.foldl stepD s) := by
  induction rows with
  | nil => intro s _; rfl
  | cons r rows ih =>
      intro s h
      have hr : durOk r = true := h r (by simp)
      unfold durOk at hr
      rcases hd : parse_duration r.duration with e | d
      · rw [hd] at hr; simp at hr
      · have hstep : List.foldlM processRow s (r :: rows) =
            List.foldlM processRow (step s r d) rows := by
          rw [List.foldlM_cons, processRow_of_ok s r d hd]; rfl
        have hdur : stepD s r = step s r d := by simp [stepD, durOf, hd]
        rw [hstep, List.foldl_cons, hdur]
        exact ih _ (fun x hx => h x (by simp [hx]))

theorem analyze_eq_processAll (rows : List Row) (h : ∀ r ∈ rows, durOk r = true) :
    analyze_calls rows = Except.ok (processAll rows) :=
  foldlM_processRow_ok rows Snapshot.init h

theorem foldlM_processRow_inv (rows : List Row) :
    ∀ (s : Snapshot) (snap : Snapshot),
      List.foldlM processRow s rows = Except.ok snap → snap = rows.foldl stepD s := by
  induction rows with
  | nil =>
      intro s snap h
      have h2 : Except.ok (ε := Unit) s = Except.ok snap := h
      cases h2; rfl
  | cons r rows ih =>
      intro s snap h
      rcases hd : parse_duration r.duration with e | d
      · have herr : List.foldlM processRow s (r :: rows) = Except.error e := by
          rw [List.foldlM_cons, processRow_of_error s r e hd]; rfl
        rw [herr] at h; simp at h
      · have hstep : List.foldlM processRow s (r :: rows) =
            List.foldlM processRow (step s r d) rows := by
          rw [List.foldlM_cons, processRow_of_ok s r d hd]; rfl
        have hdur : stepD s r = step s r d := by simp [stepD, durOf, hd]
        rw [hstep] at h
        rw [List.foldl_cons, hdur]
        exact ih _ snap h

theorem analyze_ok_elim (rows : List Row) (snap : Snapshot)
    (h : analyze_calls rows = Except.ok snap) : snap = processAll rows :=
  foldlM_processRow_inv rows Snapshot.init snap h

/-! ## Generic characterizations of the fold -/

theorem foldl_count (get : Snapshot → Nat) (g : Row → Bool)
    (h : ∀ s r, get (stepD s r) = get s + (if g r then 1 else 0)) :
    ∀ (l : List Row) (s : Snapshot),
      get (l.foldl stepD s) = get s + l.countP g := by
  intro l
  induction l with
  | nil => intro s; simp
  | cons r l ih =>
      intro s
      rw [List.foldl_cons, ih, h, List.countP_cons]
      split <;> omega

theorem foldl_sum (get : Snapshot → Int) (g : Row → Int)
    (h : ∀ s r, get (stepD s r) = get s + g r) :
    ∀ (l : List Row) (s : Snapshot),
      get (l.foldl stepD s) = get s + (l.map g).sum := by
  intro l
  induction l with
  | nil => intro s; simp
  | cons r l ih =>
      intro s
      rw [List.foldl_cons, ih, h, List.map_cons, List.sum_cons]
      ring

theorem perm_count (get : Snapshot → Nat) (g : Row → Bool)
    (h : ∀ s r, get (stepD s r) = get s + (if g r then 1 else 0))
    {l1 l2 : List Row} (hp : l1.Perm l2) :
    get (processAll l1) = get (processAll l2) := by
  unfold processAll
  rw [foldl_count get g h, foldl_count get g h, hp.countP_eq]

theorem perm_sum (get : Snapshot → Int) (g : Row → Int)
    (h : ∀ s r, get (stepD s r) = get s + g r)
    {l1 l2 : List Row} (hp : l1.Perm l2) :
    get (processAll l1) = get (processAll l2) := by
  unfold processAll
  rw [foldl_sum get g h, foldl_sum get g h, (hp.map g).sum_eq]

theorem except_ok_bind {ε α β : Type} (a : α) (f : α → Except ε β) :
    (Except.ok a >>= f) = f a := rfl

theorem except_error_bind {ε α β : Type} (e : ε) (f : α → Except ε β) :
    ((Except.error e : Except ε α) >>= f) = Except.error e := rfl

/-! ## Claim C2: the empty dataset -/

/-- Claim C2: a dataset with zero records is accepted by the aggregation pass
(analyze_calls yields the empty snapshot, with the date range absent), but
report generation does NOT complete: the overall-summary percentages and the
overall conversion rate divide by the zero total_calls with no guard, so
print_report raises ZeroDivisionError on an empty dataset.  This contradicts
the claim's never-raise requirement: the code is in the wrong (all other
ratio sites in the report do carry an explicit zero guard). -/
theorem claim_C2 :
    analyze_calls ([] : List Row) = Except.ok Snapshot.init ∧
    Snapshot.init.min_date = none ∧ Snapshot.init.max_date = none ∧
    Snapshot.init.overall.total_calls = 0 ∧
    overallSummaryPercents Snapshot.init = Except.error () ∧
    conversionRate Snapshot.init = Except.error () := by
  refine ⟨rfl, rfl, rfl, rfl, ?_, ?_⟩
  · simp [overallSummaryPercents, pyDiv, Snapshot.init, OverallAcc.init,
      except_ok_bind, except_error_bind]
  · simp [conversionRate, pyDiv, Snapshot.init, OverallAcc.init,
      except_ok_bind, except_error_bind]

/-! ## Claim C1: the conversion funnel -/

/-- Claim C1 counterexample: a single call with disposition Interested and
status Missed yields funnel (0, 0, 1) — live-conversations (0) is strictly
below interested (1), so the funnel is not monotonically non-increasing on
every input (the disposition counts the funnel subtracts are not restricted
to answered calls, and interested calls need not be answered). -/
theorem claim_C1_counterexample :
    funnel (processAll
        [⟨"A", "Interested", "", "Outgoing", "Missed", "S", "", "", "", "", ""⟩])
      = (0, 0, 1) ∧ ¬ ((0 : Int) ≥ 1) := by
  exact ⟨by decide, by decide⟩

/-! ## Claim C3: parse_duration shapes -/

/-- Claim C3 counterexample: parse_duration does not silently map every
non-matching shape to 0 — a two-field input whose fields are not integers
makes int() raise ValueError (here modelled as Except.error). -/
theorem claim_C3_counterexample : parse_duration "a:b" = Except.error () := by
  rfl

/-! ## Claim C5: session ordering and span -/

/-- Claim C5 counterexample: durations are not validated, so a single call
whose duration string is negative gives a session whose span is negative
(here -270 seconds), refuting span ≥ 0 for every input. -/
theorem claim_C5_counterexample :
    (((processAll [⟨"A", "X", "-5:30", "Outgoing", "Answered", "S", "", "",
        "01/01/2024, 10:00 AM", "", ""⟩]).sessions "A" ⟨2024, 1, 1⟩).span
      = some (-270)) ∧ (-270 : Int) < 0 := by
  exact ⟨by decide, by decide⟩

/-! ## Claim C4: the per-call session update -/

/-- Claim C4: for a record whose timestamp parses, the agent-day session
update initializes first_call (and last_call, capturing the duration) on
first sighting, replaces first_call only on a strictly earlier timestamp,
replaces last_call only on a strictly later timestamp and then re-captures
last_call_duration from this call, and adds the duration to the cumulative
talk seconds unconditionally. -/
theorem claim_C4 (s : Snapshot) (r : Row) (d : Int) (t : Timestamp)
    (ht : parse_date r.date = some t)
    (old new : Session)
    (hold : old = s.sessions r.agent t.date)
    (hnew : new = (step s r d).sessions r.agent t.date) :
    (old.first_call = none → new.first_call = some t) ∧
    (old.last_call = none → new.last_call = some t ∧ new.last_call_duration = d) ∧
    (∀ f, old.first_call = some f →
        new.first_call = (if t.sec < f.sec then some t else some f)) ∧
    (∀ l, old.last_call = some l →
        new.last_call = (if l.sec < t.sec then some t else some l) ∧
        new.last_call_duration = (if l.sec < t.sec then d else old.last_call_duration)) ∧
    new.talk_time = old.talk_time + d := by
  subst hold
  have hupd : (step s r d).sessions r.agent t.date =
      updSession (s.sessions r.agent t.date) t d := by
    simp [step, ht]
  rw [hupd] at hnew
  subst hnew
  unfold updSession
  refine ⟨?_, ?_, ?_, ?_, ?_⟩
  · intro h0; simp [h0]
  · intro h0; simp [h0]
  · intro f hf; simp [hf]
  · intro l hl; simp [hl]
    split <;> simp
  · rfl

/-- Claim C4 witness: the first sighting of Agent A on 2024-01-01 sets
first_call to that call's timestamp and adds its duration to talk time. -/
theorem claim_C4_witness :
    (((step Snapshot.init rowA1 120).sessions "Agent A" ⟨2024, 1, 1⟩).first_call
        = some ⟨2024, 1, 1, 10, 0⟩) ∧
    ((step Snapshot.init rowA1 120).sessions "Agent A" ⟨2024, 1, 1⟩).talk_time
        = (Snapshot.init.sessions "Agent A" ⟨2024, 1, 1⟩).talk_time + 120 := by
  have h := claim_C4 Snapshot.init rowA1 120 ⟨2024, 1, 1, 10, 0⟩ (by decide) _ _ rfl rfl
  exact ⟨h.1 rfl, h.2.2.2.2⟩

/-! ## Claim C6: records with unparseable timestamps -/

/-- Claim C6: a record whose timestamp string fails to parse changes no
time-based table (hour-of-day, weekday, calendar-day, date range, sessions
and their key lists) and is still counted exactly once in each non-time
dimension: overall, its agent, its disposition, its source, its campaign and
its area code, each at its own key with all other keys untouched. -/
theorem claim_C6 (s : Snapshot) (r : Row) (d : Int) (h : parse_date r.date = none) :
    ((step s r d).hourly = s.hourly ∧
     (step s r d).day_of_week = s.day_of_week ∧
     (step s r d).daily = s.daily ∧
     (step s r d).min_date = s.min_date ∧
     (step s r d).max_date = s.max_date ∧
     (step s r d).sessions = s.sessions ∧
     (step s r d).agent_keys = s.agent_keys ∧
     (step s r d).day_keys = s.day_keys) ∧
    ((step s r d).overall.total_calls = s.overall.total_calls + 1) ∧
    (((step s r d).agents r.agent).total_calls = (s.agents r.agent).total_calls + 1 ∧
     ∀ a, a ≠ r.agent → (step s r d).agents a = s.agents a) ∧
    (((step s r d).dispositions (dispOf r)).count = (s.dispositions (dispOf r)).count + 1 ∧
     ∀ k, k ≠ dispOf r → (step s r d).dispositions k = s.dispositions k) ∧
    (((step s r d).sources (sourceOf r)).total = (s.sources (sourceOf r)).total + 1 ∧
     ∀ k, k ≠ sourceOf r → (step s r d).sources k = s.sources k) ∧
    (((step s r d).campaigns (campaignOf r)).total = (s.campaigns (campaignOf r)).total + 1 ∧
     ∀ k, k ≠ campaignOf r → (step s r d).campaigns k = s.campaigns k) ∧
    (((step s r d).area_codes (get_area_code r.to_number)).total
        = (s.area_codes (get_area_code r.to_number)).total + 1 ∧
     ∀ k, k ≠ get_area_code r.to_number → (step s r d).area_codes k = s.area_codes k) := by
  refine ⟨⟨?_, ?_, ?_, ?_, ?_, ?_, ?_, ?_⟩, ?_, ⟨?_, ?_⟩, ⟨?_, ?_⟩, ⟨?_, ?_⟩,
    ⟨?_, ?_⟩, ⟨?_, ?_⟩⟩
  all_goals simp [step, h]
  all_goals intro k hk
  all_goals simp [hk]

/-- Claim C6 witness: a record with an unparseable date leaves the hourly
table untouched yet increments the overall call count. -/
theorem claim_C6_witness :
    (step Snapshot.init rowNoDate 10).hourly = Snapshot.init.hourly ∧
    (step Snapshot.init rowNoDate 10).overall.total_calls
      = Snapshot.init.overall.total_calls + 1 := by
  have h := claim_C6 Snapshot.init rowNoDate 10 (by decide)
  exact ⟨h.1.1, h.2.1⟩

/-! ## Claim C7: the weekly phone-time rollup -/

/-- Claim C7: the weekly rollup folds the per-session update over the
agent-day sessions; a session dated on a Saturday or Sunday contributes to
no weekly bucket; a weekday session adds its span and talk time to the
bucket of the Monday day number of its week (and its calendar day to that
week's days-worked set) leaving every other bucket unchanged; and that key
is indeed the Monday starting the session's ISO week (weekday zero, at most
six days back). -/
theorem claim_C7 (s : Snapshot) (w : Int → WeekAcc) (a : String) (d : Day) :
    weeklyRollup s = (sessionPairs s).foldl (wstep s) (fun _ => WeekAcc.init) ∧
    (5 ≤ d.weekday → wstep s w (a, d) = w) ∧
    (∀ f l, d.weekday < 5 →
      (s.sessions a d).first_call = some f →
      (s.sessions a d).last_call = some l →
      ((wstep s w (a, d) d.mondayNum).phone_time
          = (w d.mondayNum).phone_time
              + (l.sec + (s.sessions a d).last_call_duration - f.sec) ∧
       (wstep s w (a, d) d.mondayNum).talk_time
          = (w d.mondayNum).talk_time + (s.sessions a d).talk_time ∧
       (wstep s w (a, d) d.mondayNum).days_worked
          = (if d ∈ (w d.mondayNum).days_worked then (w d.mondayNum).days_worked
             else (w d.mondayNum).days_worked ++ [d]) ∧
       ∀ k, k ≠ d.mondayNum → wstep s w (a, d) k = w k)) ∧
    ((d.mondayNum + 3) % 7 = 0 ∧ d.mondayNum ≤ d.num ∧
      d.num - d.mondayNum = d.weekday ∧ d.weekday < 7) := by
  refine ⟨rfl, ?_, ?_, ?_⟩
  · intro hw
    rcases hf : (s.sessions a d).first_call with _ | f <;>
      rcases hl : (s.sessions a d).last_call with _ | l <;>
      simp [wstep, hf, hl, hw]
  · intro f l hw hf hl
    have hcond : ¬ (5 ≤ d.weekday) := by omega
    refine ⟨?_, ?_, ?_, ?_⟩
    · simp [wstep, hf, hl, hcond]
    · simp [wstep, hf, hl, hcond]
    · simp [wstep, hf, hl, hcond]
    · intro k hk; simp [wstep, hf, hl, hcond, hk]
  · unfold Day.mondayNum Day.weekday
    omega

/-- Claim C7 witness: Agent A's scenario session (Monday 2024-01-01) lands
in the bucket of that same Monday with its 345-second span, and a
Saturday-dated key contributes nothing. -/
theorem claim_C7_witness :
    ((wstep scenarioSnapshot (fun _ => WeekAcc.init) ("Agent A", ⟨2024, 1, 1⟩)
        (Day.mondayNum ⟨2024, 1, 1⟩)).phone_time
      = WeekAcc.init.phone_time + 345) ∧
    wstep scenarioSnapshot (fun _ => WeekAcc.init) ("Agent A", ⟨2024, 1, 6⟩)
      = (fun _ => WeekAcc.init) := by
  constructor
  · exact ((claim_C7 scenarioSnapshot (fun _ => WeekAcc.init) "Agent A"
      ⟨2024, 1, 1⟩).2.2.1 ⟨2024, 1, 1, 10, 0⟩ ⟨2024, 1, 1, 10, 5⟩
      (by decide) (by decide) (by decide)).1
  · exact (claim_C7 scenarioSnapshot (fun _ => WeekAcc.init) "Agent A"
      ⟨2024, 1, 6⟩).2.1 (by decide)


/-! ## Claim C5: session invariant machinery -/

theorem updSession_inv (sess : Session) (t : Timestamp) (dv : Int)
    (h1 : sess.first_call = none ↔ sess.last_call = none)
    (h2 : ∀ f l, sess.first_call = some f → sess.last_call = some l → f.sec ≤ l.sec) :
    (((updSession sess t dv).first_call = none ↔ (updSession sess t dv).last_call = none) ∧
     (∀ f l, (updSession sess t dv).first_call = some f →
         (updSession sess t dv).last_call = some l → f.sec ≤ l.sec)) ∧
    (0 ≤ sess.last_call_duration → 0 ≤ dv → 0 ≤ (updSession sess t dv).last_call_duration) := by
  rcases hf0 : sess.first_call with _ | f0 <;> rcases hl0 : sess.last_call with _ | l0
  · simp [updSession, hf0, hl0]
  · rw [h1.mp hf0] at hl0; simp at hl0
  · rw [h1.mpr hl0] at hf0; simp at hf0
  · have hle : f0.sec ≤ l0.sec := h2 f0 l0 hf0 hl0
    simp only [updSession, hf0, hl0]
    constructor
    · constructor
      · split <;> split <;> simp
      · intro f l hf hl
        revert hf hl
        split <;> split <;> simp <;> intro hf hl <;> subst hf <;> subst hl <;> omega
    · intro hlcd hdv
      split <;> simpa

theorem stepD_sess_inv (s : Snapshot) (r : Row)
    (h1 : ∀ a d, ((s.sessions a d).first_call = none ↔ (s.sessions a d).last_call = none))
    (h2 : ∀ a d f l, (s.sessions a d).first_call = some f →
        (s.sessions a d).last_call = some l → f.sec ≤ l.sec) :
    ((∀ a d, (((stepD s r).sessions a d).first_call = none ↔
        ((stepD s r).sessions a d).last_call = none)) ∧
     (∀ a d f l, ((stepD s r).sessions a d).first_call = some f →
        ((stepD s r).sessions a d).last_call = some l → f.sec ≤ l.sec)) ∧
    ((∀ a d, 0 ≤ (s.sessions a d).last_call_duration) → 0 ≤ durOf r →
      ∀ a d, 0 ≤ ((stepD s r).sessions a d).last_call_duration) := by
  rcases ht : parse_date r.date with _ | t
  · have hs : (stepD s r).sessions = s.sessions := by simp [stepD, step, ht]
    rw [hs]
    exact ⟨⟨h1, h2⟩, fun h3 _ => h3⟩
  · have hs : ∀ a d, (stepD s r).sessions a d =
        (if a = r.agent ∧ d = t.date then updSession (s.sessions a d) t (durOf r)
         else s.sessions a d) := by
      intro a d; simp [stepD, step, ht]
    refine ⟨⟨?_, ?_⟩, ?_⟩
    · intro a d; rw [hs a d]; split
      · exact ((updSession_inv _ t _ (h1 a d) (h2 a d)).1).1
      · exact h1 a d
    · intro a d; rw [hs a d]; split
      · exact ((updSession_inv _ t _ (h1 a d) (h2 a d)).1).2
      · exact h2 a d
    · intro h3 hd a d; rw [hs a d]; split
      · exact (updSession_inv _ t _ (h1 a d) (h2 a d)).2 (h3 a d) hd
      · exact h3 a d

theorem fold_sess_inv (rows : List Row) :
    ∀ s : Snapshot,
    (∀ a d, ((s.sessions a d).first_call = none ↔ (s.sessions a d).last_call = none)) →
    (∀ a d f l, (s.sessions a d).first_call = some f →
        (s.sessions a d).last_call = some l → f.sec ≤ l.sec) →
    ((∀ a d, (((rows.foldl stepD s).sessions a d).first_call = none ↔
        ((rows.foldl stepD s).sessions a d).last_call = none)) ∧
     (∀ a d f l, ((rows.foldl stepD s).sessions a d).first_call = some f →
        ((rows.foldl stepD s).sessions a d).last_call = some l → f.sec ≤ l.sec)) ∧
    ((∀ a d, 0 ≤ (s.sessions a d).last_call_duration) → (∀ r ∈ rows, 0 ≤ durOf r) →
      ∀ a d, 0 ≤ ((rows.foldl stepD s).sessions a d).last_call_duration) := by
  induction rows with
  | nil => intro s p1 p2; exact ⟨⟨p1, p2⟩, fun p3 _ => p3⟩
  | cons r rows ih =>
      intro s p1 p2
      rw [List.foldl_cons]
      have hstep := stepD_sess_inv s r p1 p2
      have ihh := ih (stepD s r) hstep.1.1 hstep.1.2
      refine ⟨ihh.1, ?_⟩
      intro p3 pall
      exact ihh.2 (hstep.2 p3 (pall r (by simp)))
        (fun x hx => pall x (by simp [hx]))

/-- Claim C5: on every successful run, each agent-day session has
first_call_time at most last_call_time; and, provided every record duration
parsed nonnegative, every session span (last start plus last duration minus
first start) is nonnegative.  The claim as frozen asserts span nonnegativity
for every input; that fails for negative duration strings (see the
counterexample), which the normalizer accepts unvalidated. -/
theorem claim_C5 (rows : List Row) (snap : Snapshot)
    (h : analyze_calls rows = Except.ok snap) :
    (∀ a d f l, (snap.sessions a d).first_call = some f →
        (snap.sessions a d).last_call = some l → f.sec ≤ l.sec) ∧
    ((∀ r ∈ rows, 0 ≤ durOf r) →
      ∀ a d sp, (snap.sessions a d).span = some sp → 0 ≤ sp) := by
  have hs := analyze_ok_elim rows snap h
  subst hs
  unfold processAll
  have hfold := fold_sess_inv rows Snapshot.init
      (by intro a d; simp [Snapshot.init, Session.init])
      (by intro a d f l hf; simp [Snapshot.init, Session.init] at hf)
  constructor
  · exact hfold.1.2
  · intro hpos a d sp hsp
    have h3 := hfold.2 (by intro a d; simp [Snapshot.init, Session.init]) hpos a d
    unfold Session.span at hsp
    rcases hf : ((rows.foldl stepD Snapshot.init).sessions a d).first_call with _ | f
    · rw [hf] at hsp; simp at hsp
    · rcases hl : ((rows.foldl stepD Snapshot.init).sessions a d).last_call with _ | l
      · rw [hf, hl] at hsp; simp at hsp
      · rw [hf, hl] at hsp
        have hle := hfold.1.2 a d f l hf hl
        simp at hsp
        omega

/-- Claim C5 witness: in the scenario run, Agent A's first call is no later
than the last and the 345-second span is nonnegative. -/
theorem claim_C5_witness :
    ((⟨2024, 1, 1, 10, 0⟩ : Timestamp).sec ≤ (⟨2024, 1, 1, 10, 5⟩ : Timestamp).sec) ∧
    (0 : Int) ≤ 345 := by
  have h := claim_C5 scenarioRows (processAll scenarioRows)
      (analyze_eq_processAll scenarioRows (by decide))
  exact ⟨h.1 "Agent A" ⟨2024, 1, 1⟩ _ _ (by decide) (by decide),
         h.2 (by decide) "Agent A" ⟨2024, 1, 1⟩ 345 (by decide)⟩


/-! ## Claim C1: funnel machinery -/

theorem countP_four_le {α : Type} (p1 p2 p3 p4 q : α → Bool) (l : List α)
    (hx : ∀ a, (p1 a = true → p2 a = false ∧ p3 a = false ∧ p4 a = false) ∧
               (p2 a = true → p3 a = false ∧ p4 a = false) ∧
               (p3 a = true → p4 a = false))
    (h : ∀ a ∈ l, p1 a = true ∨ p2 a = true ∨ p3 a = true ∨ p4 a = true → q a = true) :
    l.countP p1 + l.countP p2 + l.countP p3 + l.countP p4 ≤ l.countP q := by
  induction l with
  | nil => simp
  | cons a l ih =>
      have ha := h a (by simp)
      have ht : ∀ x ∈ l, p1 x = true ∨ p2 x = true ∨ p3 x = true ∨ p4 x = true →
          q x = true := fun x hx2 => h x (by simp [hx2])
      have hih := ih ht
      rcases hx a with ⟨hx1, hx2, hx3⟩
      simp only [List.countP_cons]
      by_cases h1 : p1 a = true <;> by_cases h2 : p2 a = true <;>
        by_cases h3 : p3 a = true <;> by_cases h4 : p4 a = true <;>
        simp_all <;> omega

theorem processAll_answered (l : List Row) :
    (processAll l).overall.answered = l.countP (fun r => decide (r.status = "Answered")) := by
  unfold processAll
  rw [foldl_count (fun s => s.overall.answered) (fun r => decide (r.status = "Answered"))
    (by intro s r; simp [stepD, step])]
  simp [Snapshot.init, OverallAcc.init]

theorem processAll_interested (l : List Row) :
    (processAll l).overall.interested = l.countP (fun r => isInterested r) := by
  unfold processAll
  rw [foldl_count (fun s => s.overall.interested) (fun r => isInterested r)
    (by intro s r; simp [stepD, step])]
  simp [Snapshot.init, OverallAcc.init]

theorem processAll_disp (l : List Row) (k : String) :
    ((processAll l).dispositions k).count = l.countP (fun r => decide (dispOf r = k)) := by
  unfold processAll
  rw [foldl_count (fun s => (s.dispositions k).count) (fun r => decide (dispOf r = k))
    (by intro s r; simp [stepD, step]
        by_cases hk : k = dispOf r <;> simp [hk, eq_comm])]
  simp [Snapshot.init, DispAcc.init]

/-- Claim C1: on every successful run, connected (answered) is at least the
live-conversation figure (answered minus the Voicemail, Bad Number and
No Call Outcome disposition counts); and under the disjointness hypothesis
the claim's construction presupposes — every record carrying one of those
three dispositions or Interested has status Answered — the full funnel
chain connected ≥ live-conversations ≥ interested holds.  As frozen (for
every input, with no hypothesis) the chain's second inequality is false:
the subtracted disposition counts and the interested count are not computed
from subsets of the answered calls (see the counterexample). -/
theorem claim_C1 (rows : List Row) (snap : Snapshot)
    (h : analyze_calls rows = Except.ok snap) :
    ((funnel snap).2.1 ≤ (funnel snap).1) ∧
    ((∀ r ∈ rows,
        (dispOf r = "Interested" ∨ dispOf r = "Voicemail" ∨
         dispOf r = "Bad Number" ∨ dispOf r = "No Call Outcome") →
        r.status = "Answered") →
      (funnel snap).2.2 ≤ (funnel snap).2.1 ∧ (funnel snap).2.1 ≤ (funnel snap).1) := by
  have hs := analyze_ok_elim rows snap h
  subst hs
  have hfirst : (funnel (processAll rows)).2.1 ≤ (funnel (processAll rows)).1 := by
    simp only [funnel]
    omega
  refine ⟨hfirst, ?_⟩
  intro hyp
  refine ⟨?_, hfirst⟩
  have hx : ∀ a : Row,
      (isInterested a = true → decide (dispOf a = "Voicemail") = false ∧
        decide (dispOf a = "Bad Number") = false ∧
        decide (dispOf a = "No Call Outcome") = false) ∧
      (decide (dispOf a = "Voicemail") = true →
        decide (dispOf a = "Bad Number") = false ∧
        decide (dispOf a = "No Call Outcome") = false) ∧
      (decide (dispOf a = "Bad Number") = true →
        decide (dispOf a = "No Call Outcome") = false) := by
    intro a
    refine ⟨?_, ?_, ?_⟩
    · intro hh; simp [isInterested] at hh; simp [hh]
    · intro hh; simp at hh; simp [hh]
    · intro hh; simp at hh; simp [hh]
  have hq : ∀ a ∈ rows,
      (isInterested a = true ∨ decide (dispOf a = "Voicemail") = true ∨
       decide (dispOf a = "Bad Number") = true ∨
       decide (dispOf a = "No Call Outcome") = true) →
      decide (a.status = "Answered") = true := by
    intro a ha hor
    have hd : dispOf a = "Interested" ∨ dispOf a = "Voicemail" ∨
        dispOf a = "Bad Number" ∨ dispOf a = "No Call Outcome" := by
      rcases hor with hh | hh | hh | hh
      · exact Or.inl (by simpa [isInterested] using hh)
      · exact Or.inr (Or.inl (by simpa using hh))
      · exact Or.inr (Or.inr (Or.inl (by simpa using hh)))
      · exact Or.inr (Or.inr (Or.inr (by simpa using hh)))
    simpa using hyp a ha hd
  have hcount := countP_four_le (fun r => isInterested r)
    (fun r => decide (dispOf r = "Voicemail"))
    (fun r => decide (dispOf r = "Bad Number"))
    (fun r => decide (dispOf r = "No Call Outcome"))
    (fun r => decide (r.status = "Answered")) rows hx hq
  simp only [funnel]
  rw [processAll_interested, processAll_answered,
    processAll_disp rows "Voicemail", processAll_disp rows "Bad Number",
    processAll_disp rows "No Call Outcome"]
  omega

/-- Claim C1 witness: the scenario rows (where those dispositions only occur
on answered calls) satisfy the full funnel chain. -/
theorem claim_C1_witness :
    (funnel (processAll scenarioRows)).2.2 ≤ (funnel (processAll scenarioRows)).2.1 ∧
    (funnel (processAll scenarioRows)).2.1 ≤ (funnel (processAll scenarioRows)).1 := by
  exact (claim_C1 scenarioRows (processAll scenarioRows)
    (analyze_eq_processAll scenarioRows (by decide))).2 (by decide)


/-! ## Claim C9: the end-to-end scenario -/

/-- Claim C9 counterexample: with the timestamp strings exactly as the
scenario text writes them (no comma between date and time, and an out-of-
range 12-hour value "14" with PM on the third row), parse_date rejects all
of them, so no agent-day session exists at all and Agent A has no session
span — the expected 5-minute-45-second span does not appear (the non-time
aggregates, such as total_calls = 3, are still produced). -/
theorem claim_C9_counterexample :
    parse_date "01/01/2024 10:00 AM" = none ∧
    parse_date "01/01/2024 14:00 PM" = none ∧
    (processAll scenarioRowsLiteral).agent_keys = [] ∧
    ((processAll scenarioRowsLiteral).sessions "Agent A" ⟨2024, 1, 1⟩).span = none ∧
    (processAll scenarioRowsLiteral).overall.total_calls = 3 := by
  exact ⟨by decide, by decide, by decide, by decide, by decide⟩

/-- Claim C9: the end-to-end scenario, with its timestamps written in the
format parse_date accepts ("01/01/2024, 10:00 AM", "01/01/2024, 10:05 AM",
"01/01/2024, 02:00 PM"): total_calls is 3, interested is 1, the overall
conversion rate is 100/3 percent (shown as 33.33), Agent A's session span
on that day is 5 minutes 45 seconds, and SourceX converts at 50 percent. -/
theorem claim_C9 :
    analyze_calls scenarioRows = Except.ok scenarioSnapshot ∧
    scenarioSnapshot.overall.total_calls = 3 ∧
    scenarioSnapshot.overall.interested = 1 ∧
    conversionRate scenarioSnapshot = Except.ok (100 / 3) ∧
    fmt2 (100 / 3) = 3333 ∧
    (scenarioSnapshot.sessions "Agent A" ⟨2024, 1, 1⟩).span = some (5 * 60 + 45) ∧
    sourceConvRate scenarioSnapshot "SourceX" = 50 := by
  refine ⟨analyze_eq_processAll scenarioRows (by decide), by decide, by decide,
    ?_, ?_, by decide, ?_⟩
  · have h1 : scenarioSnapshot.overall.interested = 1 := by decide
    have h2 : scenarioSnapshot.overall.total_calls = 3 := by decide
    simp [conversionRate, pyDiv, h1, h2, except_ok_bind]
    norm_num
  · rw [fmt2, round_eq]
    rw [Int.floor_eq_iff]
    constructor <;> norm_num
  · have h1 : (scenarioSnapshot.sources "SourceX").interested = 1 := by decide
    have h2 : (scenarioSnapshot.sources "SourceX").total = 2 := by decide
    simp [sourceConvRate, h1, h2]
    norm_num


/-! ## Digit-string machinery for claims C3 and C10 -/

theorem digit_char_facts (n : Nat) (h : n < 10) :
    digitB (Char.ofNat (48 + n)) = true ∧ Char.ofNat (48 + n) ≠ ':' ∧
    digitVal (Char.ofNat (48 + n)) = n := by
  interval_cases n <;> exact ⟨by decide, by decide, by decide⟩

theorem natChars_all_digit (n : Nat) : (natChars n).all digitB = true := by
  induction n using Nat.strong_induction_on with
  | _ n ih =>
      rw [natChars]
      split
      · simp [List.all_cons, (digit_char_facts n (by omega)).1]
      · rename_i h
        rw [List.all_append, Bool.and_eq_true]
        exact ⟨ih (n / 10) (by omega), by simp [(digit_char_facts (n % 10) (by omega)).1]⟩

theorem natChars_ne_nil (n : Nat) : natChars n ≠ [] := by
  rw [natChars]
  split
  · simp
  · simp

theorem digitsVal_append_single (l : List Char) (c : Char) :
    digitsVal (l ++ [c]) = digitsVal l * 10 + digitVal c := by
  simp [digitsVal, List.foldl_append]

theorem digitsVal_natChars (n : Nat) : digitsVal (natChars n) = n := by
  induction n using Nat.strong_induction_on with
  | _ n ih =>
      rw [natChars]
      split
      · rename_i h
        simp [digitsVal, (digit_char_facts n h).2.2]
      · rename_i h
        rw [digitsVal_append_single, ih (n / 10) (by omega),
          (digit_char_facts (n % 10) (by omega)).2.2]
        omega

theorem spaceB_of_digitB (c : Char) (h : digitB c = true) : spaceB c = false := by
  simp [digitB] at h
  simp [spaceB]
  omega

theorem dropWhile_of_none (p : Char → Bool) (l : List Char)
    (h : ∀ c ∈ l, p c = false) : l.dropWhile p = l := by
  cases l with
  | nil => rfl
  | cons c cs => rw [List.dropWhile_cons, h c (by simp)]; simp

theorem stripEnds_of_digits (l : List Char) (h : l.all digitB = true) :
    stripEnds spaceB l = l := by
  unfold stripEnds
  rw [dropWhile_of_none spaceB l
      (fun c hc => spaceB_of_digitB c (by rw [List.all_eq_true] at h; exact h c hc)),
    dropWhile_of_none spaceB l.reverse
      (fun c hc => spaceB_of_digitB c
        (by rw [List.all_eq_true] at h; exact h c (List.mem_reverse.mp hc))),
    List.reverse_reverse]

theorem pyIntChars_digits (l : List Char) (h1 : l ≠ []) (h2 : l.all digitB = true) :
    pyIntChars l = some (↑(digitsVal l) : Int) := by
  have hstrip := stripEnds_of_digits l h2
  simp only [pyIntChars, hstrip]
  rcases l with _ | ⟨c, cs⟩
  · simp at h1
  · have hc : digitB c = true := by
      rw [List.all_eq_true] at h2; exact h2 c (by simp)
    have hcm : c ≠ '-' := by
      intro hh; subst hh; simp [digitB] at hc
    have hcp : c ≠ '+' := by
      intro hh; subst hh; simp [digitB] at hc
    split
    · rename_i heq; exfalso; rw [List.cons.injEq] at heq; exact hcm heq.1
    · rename_i heq; exfalso; rw [List.cons.injEq] at heq; exact hcp heq.1
    · simp [h2]

theorem pyIntChars_natChars (n : Nat) :
    pyIntChars (natChars n) = some (↑n : Int) := by
  rw [pyIntChars_digits (natChars n) (natChars_ne_nil n) (natChars_all_digit n),
    digitsVal_natChars]

theorem digitsVal_cons_zero (l : List Char) : digitsVal ('0' :: l) = digitsVal l := rfl

theorem pad2_all_digit (n : Nat) : (pad2 n).all digitB = true := by
  unfold pad2
  split
  · rw [List.all_cons, Bool.and_eq_true]
    exact ⟨by decide, natChars_all_digit n⟩
  · exact natChars_all_digit n

theorem pad2_ne_nil (n : Nat) : pad2 n ≠ [] := by
  unfold pad2
  split
  · simp
  · exact natChars_ne_nil n

theorem pyIntChars_pad2 (n : Nat) : pyIntChars (pad2 n) = some (↑n : Int) := by
  rw [pyIntChars_digits (pad2 n) (pad2_ne_nil n) (pad2_all_digit n)]
  unfold pad2
  split
  · rw [digitsVal_cons_zero, digitsVal_natChars]
  · rw [digitsVal_natChars]

theorem no_colon_of_digits (l : List Char) (h : l.all digitB = true) :
    ∀ c ∈ l, c ≠ ':' := by
  intro c hc heq
  rw [List.all_eq_true] at h
  have := h c hc
  subst heq
  simp [digitB] at this

theorem splitColon_no_colon (l : List Char) (h : ∀ c ∈ l, c ≠ ':') :
    splitColon l = [l] := by
  induction l with
  | nil => rfl
  | cons c cs ih =>
      have hc : c ≠ ':' := h c (by simp)
      rw [splitColon]
      simp only [hc, if_false]
      rw [ih (fun x hx => h x (by simp [hx]))]

theorem splitColon_append (a b : List Char) (h : ∀ c ∈ a, c ≠ ':') :
    splitColon (a ++ ':' :: b) = a :: splitColon b := by
  induction a with
  | nil => simp [splitColon]
  | cons c cs ih =>
      have hc : c ≠ ':' := h c (by simp)
      rw [List.cons_append, splitColon]
      simp only [hc, if_false]
      rw [ih (fun x hx => h x (by simp [hx]))]

theorem splitColon_ne_nil_left (a b : List Char) : a ++ ':' :: b ≠ [] := by
  cases a <;> simp

theorem colon_list_ne_zero (a b : List Char) : a ++ ':' :: b ≠ ['0'] := by
  cases a with
  | nil => simp
  | cons c a2 => simp

theorem parseDurationChars_two (a b : List Char) (x y : Int)
    (hx : pyIntChars a = some x) (hy : pyIntChars b = some y)
    (ha : ∀ ch ∈ a, ch ≠ ':') (hb : ∀ ch ∈ b, ch ≠ ':') :
    parseDurationChars (a ++ ':' :: b) = Except.ok (x * 60 + y) := by
  unfold parseDurationChars
  have hne : ¬(a ++ ':' :: b = [] ∨ a ++ ':' :: b = ['0']) := by
    push_neg
    exact ⟨splitColon_ne_nil_left a b, colon_list_ne_zero a b⟩
  rw [if_neg hne]
  rw [splitColon_append a b ha, splitColon_no_colon b hb]
  simp only [intOf, hx, hy, except_ok_bind]
  rfl

theorem parseDurationChars_three (a b c : List Char) (x y z : Int)
    (hx : pyIntChars a = some x) (hy : pyIntChars b = some y) (hz : pyIntChars c = some z)
    (ha : ∀ ch ∈ a, ch ≠ ':') (hb : ∀ ch ∈ b, ch ≠ ':') (hc : ∀ ch ∈ c, ch ≠ ':') :
    parseDurationChars (a ++ ':' :: (b ++ ':' :: c)) =
      Except.ok (x * 3600 + y * 60 + z) := by
  unfold parseDurationChars
  have hne : ¬(a ++ ':' :: (b ++ ':' :: c) = [] ∨ a ++ ':' :: (b ++ ':' :: c) = ['0']) := by
    push_neg
    exact ⟨splitColon_ne_nil_left a _, colon_list_ne_zero a _⟩
  rw [if_neg hne]
  rw [splitColon_append a _ ha, splitColon_append b c hb, splitColon_no_colon c hc]
  simp only [intOf, hx, hy, hz, except_ok_bind]
  rfl

/-! ## Claim C10: format then parse is the identity -/

/-- Claim C10: for every natural number of seconds, format_duration emits a
shape parse_duration accepts (M:SS below one hour, H:MM:SS from one hour
up, with padded minute and second fields), and parsing the formatted string
returns exactly the original second count. -/
theorem claim_C10 (s : Nat) :
    parse_duration (format_duration s) = Except.ok (↑s : Int) := by
  unfold format_duration parse_duration
  by_cases hh : s / 3600 > 0
  · rw [if_pos hh]
    show parseDurationChars
      (natChars (s / 3600) ++ ':' :: (pad2 (s % 3600 / 60) ++ ':' :: pad2 (s % 60))) = _
    rw [parseDurationChars_three _ _ _ _ _ _
      (pyIntChars_natChars _) (pyIntChars_pad2 _) (pyIntChars_pad2 _)
      (no_colon_of_digits _ (natChars_all_digit _))
      (no_colon_of_digits _ (pad2_all_digit _))
      (no_colon_of_digits _ (pad2_all_digit _))]
    congr 1
    omega
  · rw [if_neg hh]
    show parseDurationChars
      (natChars (s % 3600 / 60) ++ ':' :: pad2 (s % 60)) = _
    rw [parseDurationChars_two _ _ _ _
      (pyIntChars_natChars _) (pyIntChars_pad2 _)
      (no_colon_of_digits _ (natChars_all_digit _))
      (no_colon_of_digits _ (pad2_all_digit _))]
    congr 1
    omega

/-! ## Claim C3: parse_duration shapes, amended -/

/-- Claim C3: parse_duration maps the empty string and "0" to 0, maps the
spec's four examples as stated, maps M:SS to minutes*60+seconds and
H:MM:SS to hours*3600+minutes*60+seconds whenever the colon-fields parse as
Python integers, and maps every input that does not split into exactly two
or three colon-fields to 0.  The claim's further assertion that every other
shape falls back to 0 without raising is false: a two- or three-field input
with a non-integer field raises ValueError (see the counterexample). -/
theorem claim_C3 :
    (parse_duration "" = Except.ok 0 ∧ parse_duration "0" = Except.ok 0 ∧
     parse_duration "1:05:30" = Except.ok 3930 ∧ parse_duration "2:05" = Except.ok 125) ∧
    (∀ a b x y, pyIntChars a = some x → pyIntChars b = some y →
        (∀ ch ∈ a, ch ≠ ':') → (∀ ch ∈ b, ch ≠ ':') →
        parseDurationChars (a ++ ':' :: b) = Except.ok (x * 60 + y)) ∧
    (∀ a b c x y z, pyIntChars a = some x → pyIntChars b = some y →
        pyIntChars c = some z →
        (∀ ch ∈ a, ch ≠ ':') → (∀ ch ∈ b, ch ≠ ':') → (∀ ch ∈ c, ch ≠ ':') →
        parseDurationChars (a ++ ':' :: (b ++ ':' :: c)) =
          Except.ok (x * 3600 + y * 60 + z)) ∧
    (∀ cs, cs ≠ [] → cs ≠ ['0'] →
        (splitColon cs).length ≠ 2 → (splitColon cs).length ≠ 3 →
        parseDurationChars cs = Except.ok 0) := by
  refine ⟨⟨by rfl, by rfl, by rfl, by rfl⟩, ?_, ?_, ?_⟩
  · intro a b x y hx hy ha hb
    exact parseDurationChars_two a b x y hx hy ha hb
  · intro a b c x y z hx hy hz ha hb hc
    exact parseDurationChars_three a b c x y z hx hy hz ha hb hc
  · intro cs h0 h1 h2 h3
    unfold parseDurationChars
    rw [if_neg (by push_neg; exact ⟨h0, h1⟩)]
    rcases h : splitColon cs with _ | ⟨a, _ | ⟨b, _ | ⟨c, _ | ⟨d, rest⟩⟩⟩⟩
    · rfl
    · rfl
    · rw [h] at h2; simp at h2
    · rw [h] at h3; simp at h3
    · rfl

/-- Claim C3 witness: the M:SS rule applied to the concrete fields of
"2:05" gives 125 seconds. -/
theorem claim_C3_witness :
    parseDurationChars (['2'] ++ ':' :: ['0', '5']) = Except.ok (2 * 60 + 5) := by
  exact (claim_C3.2.1) ['2'] ['0', '5'] 2 5 (by decide) (by decide)
    (by decide) (by decide)


/-! ## Claim C8: permutation invariance -/

theorem foldl_leads (l : List Row) : ∀ s : Snapshot,
    (l.foldl stepD s).interested_leads =
      s.interested_leads ++ (l.filter (fun r => isInterested r)).map leadOf := by
  induction l with
  | nil => intro s; simp
  | cons r l ih =>
      intro s
      rw [List.foldl_cons, ih]
      have hstep : (stepD s r).interested_leads =
          (if isInterested r then s.interested_leads ++ [leadOf r]
           else s.interested_leads) := by
        simp [stepD, step, leadOf]
      rw [hstep, List.filter_cons]
      by_cases hi : isInterested r <;> simp [hi]

theorem processAll_leads (l : List Row) :
    (processAll l).interested_leads =
      (l.filter (fun r => isInterested r)).map leadOf := by
  unfold processAll
  rw [foldl_leads]
  simp [Snapshot.init]

/-- Claim C8: for permuted input streams, every aggregate count and duration
total of the snapshots agrees (overall, per-agent, per-disposition,
per-source, hourly, per-weekday, per-campaign, per-area-code, per-day and
per-session talk time), and each run's interested-leads list is exactly its
own stream's interested rows in encounter order.  The claim's further
assertion that ONLY the leads list may differ is false: last_call_duration
depends on processing order when two calls of one agent-day tie on the
maximum timestamp (see the counterexample). -/
theorem claim_C8 (l1 l2 : List Row) (s1 s2 : Snapshot)
    (hok1 : analyze_calls l1 = Except.ok s1) (hok2 : analyze_calls l2 = Except.ok s2)
    (hp : l1.Perm l2) :
    (s1.overall.total_calls = s2.overall.total_calls ∧
     s1.overall.total_duration = s2.overall.total_duration ∧
     s1.overall.answered = s2.overall.answered ∧
     s1.overall.missed = s2.overall.missed ∧
     s1.overall.incoming = s2.overall.incoming ∧
     s1.overall.outgoing = s2.overall.outgoing ∧
     s1.overall.interested = s2.overall.interested) ∧
    (∀ a, (s1.agents a).total_calls = (s2.agents a).total_calls ∧
          (s1.agents a).total_duration = (s2.agents a).total_duration ∧
          (∀ k, (s1.agents a).dispositions k = (s2.agents a).dispositions k) ∧
          (∀ k, (s1.agents a).call_types k = (s2.agents a).call_types k) ∧
          (∀ k, (s1.agents a).statuses k = (s2.agents a).statuses k)) ∧
    (∀ k, (s1.dispositions k).count = (s2.dispositions k).count ∧
          (s1.dispositions k).total_duration = (s2.dispositions k).total_duration) ∧
    (∀ k, (s1.sources k).total = (s2.sources k).total ∧
          (s1.sources k).interested = (s2.sources k).interested ∧
          (s1.sources k).answered = (s2.sources k).answered ∧
          (s1.sources k).voicemail = (s2.sources k).voicemail) ∧
    (∀ h, (s1.hourly h).total = (s2.hourly h).total ∧
          (s1.hourly h).answered = (s2.hourly h).answered ∧
          (s1.hourly h).interested = (s2.hourly h).interested ∧
          (s1.hourly h).live_answer = (s2.hourly h).live_answer) ∧
    (∀ k, (s1.day_of_week k).total = (s2.day_of_week k).total ∧
          (s1.day_of_week k).answered = (s2.day_of_week k).answered ∧
          (s1.day_of_week k).interested = (s2.day_of_week k).interested ∧
          (s1.day_of_week k).live_answer = (s2.day_of_week k).live_answer) ∧
    (∀ k, (s1.campaigns k).total = (s2.campaigns k).total ∧
          (s1.campaigns k).interested = (s2.campaigns k).interested ∧
          (s1.campaigns k).answered = (s2.campaigns k).answered ∧
          (s1.campaigns k).voicemail = (s2.campaigns k).voicemail ∧
          (s1.campaigns k).not_interested = (s2.campaigns k).not_interested ∧
          (s1.campaigns k).duration = (s2.campaigns k).duration) ∧
    (∀ k, (s1.area_codes k).total = (s2.area_codes k).total ∧
          (s1.area_codes k).live_answer = (s2.area_codes k).live_answer ∧
          (s1.area_codes k).voicemail = (s2.area_codes k).voicemail) ∧
    (∀ d, (s1.daily d).total = (s2.daily d).total ∧
          (s1.daily d).interested = (s2.daily d).interested ∧
          (s1.daily d).duration = (s2.daily d).duration) ∧
    (∀ a d, (s1.sessions a d).talk_time = (s2.sessions a d).talk_time) ∧
    (s1.interested_leads = (l1.filter (fun r => isInterested r)).map leadOf ∧
     s2.interested_leads = (l2.filter (fun r => isInterested r)).map leadOf) := by
  have e1 := analyze_ok_elim l1 s1 hok1
  have e2 := analyze_ok_elim l2 s2 hok2
  subst e1; subst e2
  refine ⟨⟨?_, ?_, ?_, ?_, ?_, ?_, ?_⟩, ?_, ?_, ?_, ?_, ?_, ?_, ?_, ?_, ?_,
    processAll_leads l1, processAll_leads l2⟩
  · exact perm_count (fun s => s.overall.total_calls) (fun _ => true)
      (by intro s r; simp [stepD, step]) hp
  · exact perm_sum (fun s => s.overall.total_duration) (fun r => durOf r)
      (by intro s r; simp [stepD, step]) hp
  · exact perm_count (fun s => s.overall.answered)
      (fun r => decide (r.status = "Answered"))
      (by intro s r; simp [stepD, step]) hp
  · exact perm_count (fun s => s.overall.missed)
      (fun r => ! decide (r.status = "Answered"))
      (by intro s r; simp only [stepD, step]
          by_cases hA : r.status = "Answered" <;> simp [hA]) hp
  · exact perm_count (fun s => s.overall.incoming)
      (fun r => decide (r.callType = "Incoming"))
      (by intro s r; simp [stepD, step]) hp
  · exact perm_count (fun s => s.overall.outgoing)
      (fun r => ! decide (r.callType = "Incoming"))
      (by intro s r; simp only [stepD, step]
          by_cases hA : r.callType = "Incoming" <;> simp [hA]) hp
  · exact perm_count (fun s => s.overall.interested) (fun r => isInterested r)
      (by intro s r; simp [stepD, step]) hp
  · intro a
    refine ⟨?_, ?_, ?_, ?_, ?_⟩
    · exact perm_count (fun s => (s.agents a).total_calls)
        (fun r => decide (a = r.agent))
        (by intro s r; simp only [stepD, step]
            by_cases hA : a = r.agent <;> simp [hA]) hp
    · exact perm_sum (fun s => (s.agents a).total_duration)
        (fun r => if a = r.agent then durOf r else 0)
        (by intro s r; simp only [stepD, step]
            by_cases hA : a = r.agent <;> simp [hA]) hp
    · intro k
      exact perm_count (fun s => (s.agents a).dispositions k)
        (fun r => decide (a = r.agent ∧ k = dispOf r))
        (by intro s r; simp only [stepD, step]
            by_cases hA : a = r.agent <;> by_cases hB : k = dispOf r <;>
              simp [hA, hB, bump]) hp
    · intro k
      exact perm_count (fun s => (s.agents a).call_types k)
        (fun r => decide (a = r.agent ∧ k = r.callType))
        (by intro s r; simp only [stepD, step]
            by_cases hA : a = r.agent <;> by_cases hB : k = r.callType <;>
              simp [hA, hB, bump]) hp
    · intro k
      exact perm_count (fun s => (s.agents a).statuses k)
        (fun r => decide (a = r.agent ∧ k = r.status))
        (by intro s r; simp only [stepD, step]
            by_cases hA : a = r.agent <;> by_cases hB : k = r.status <;>
              simp [hA, hB, bump]) hp
  · intro k
    constructor
    · exact perm_count (fun s => (s.dispositions k).count)
        (fun r => decide (k = dispOf r))
        (by intro s r; simp only [stepD, step]
            by_cases hA : k = dispOf r <;> simp [hA]) hp
    · exact perm_sum (fun s => (s.dispositions k).total_duration)
        (fun r => if k = dispOf r then durOf r else 0)
        (by intro s r; simp only [stepD, step]
            by_cases hA : k = dispOf r <;> simp [hA]) hp
  · intro k
    refine ⟨?_, ?_, ?_, ?_⟩
    · exact perm_count (fun s => (s.sources k).total)
        (fun r => decide (k = sourceOf r))
        (by intro s r; simp only [stepD, step]
            by_cases hA : k = sourceOf r <;> simp [hA]) hp
    · exact perm_count (fun s => (s.sources k).interested)
        (fun r => decide (k = sourceOf r) && isInterested r)
        (by intro s r; simp only [stepD, step]
            by_cases hA : k = sourceOf r <;> by_cases hB : isInterested r <;>
              simp [hA, hB]) hp
    · exact perm_count (fun s => (s.sources k).answered)
        (fun r => decide (k = sourceOf r) && decide (r.status = "Answered"))
        (by intro s r; simp only [stepD, step]
            by_cases hA : k = sourceOf r <;> by_cases hB : r.status = "Answered" <;>
              simp [hA, hB]) hp
    · exact perm_count (fun s => (s.sources k).voicemail)
        (fun r => decide (k = sourceOf r) && isVoicemail r)
        (by intro s r; simp only [stepD, step]
            by_cases hA : k = sourceOf r <;> by_cases hB : isVoicemail r <;>
              simp [hA, hB]) hp
  · intro h
    refine ⟨?_, ?_, ?_, ?_⟩
    · exact perm_count (fun s => (s.hourly h).total)
        (fun r => match parse_date r.date with
          | none => false
          | some t => decide (h = t.hour))
        (by intro s r
            rcases ht : parse_date r.date with _ | t
            · simp [stepD, step, ht]
            · simp only [stepD, step, ht]
              by_cases hA : h = t.hour <;> simp [hA]) hp
    · exact perm_count (fun s => (s.hourly h).answered)
        (fun r => match parse_date r.date with
          | none => false
          | some t => decide (h = t.hour ∧ r.status = "Answered"))
        (by intro s r
            rcases ht : parse_date r.date with _ | t
            · simp [stepD, step, ht]
            · simp only [stepD, step, ht]
              by_cases hA : h = t.hour <;> by_cases hB : r.status = "Answered" <;>
                simp [hA, hB]) hp
    · exact perm_count (fun s => (s.hourly h).interested)
        (fun r => match parse_date r.date with
          | none => false
          | some t => decide (h = t.hour) && isInterested r)
        (by intro s r
            rcases ht : parse_date r.date with _ | t
            · simp [stepD, step, ht]
            · simp only [stepD, step, ht]
              by_cases hA : h = t.hour <;> by_cases hB : isInterested r <;>
                simp [hA, hB]) hp
    · exact perm_count (fun s => (s.hourly h).live_answer)
        (fun r => match parse_date r.date with
          | none => false
          | some t => decide (h = t.hour) && isLiveAnswer r)
        (by intro s r
            rcases ht : parse_date r.date with _ | t
            · simp [stepD, step, ht]
            · simp only [stepD, step, ht]
              by_cases hA : h = t.hour <;> by_cases hB : isLiveAnswer r <;>
                simp [hA, hB]) hp
  · intro k
    refine ⟨?_, ?_, ?_, ?_⟩
    · exact perm_count (fun s => (s.day_of_week k).total)
        (fun r => match parse_date r.date with
          | none => false
          | some t => decide (k = weekdayName t.date.weekday))
        (by intro s r
            rcases ht : parse_date r.date with _ | t
            · simp [stepD, step, ht]
            · simp only [stepD, step, ht]
              by_cases hA : k = weekdayName t.date.weekday <;> simp [hA]) hp
    · exact perm_count (fun s => (s.day_of_week k).answered)
        (fun r => match parse_date r.date with
          | none => false
          | some t => decide (k = weekdayName t.date.weekday) &&
              decide (r.status = "Answered"))
        (by intro s r
            rcases ht : parse_date r.date with _ | t
            · simp [stepD, step, ht]
            · simp only [stepD, step, ht]
              by_cases hA : k = weekdayName t.date.weekday <;>
                by_cases hB : r.status = "Answered" <;> simp [hA, hB]) hp
    · exact perm_count (fun s => (s.day_of_week k).interested)
        (fun r => match parse_date r.date with
          | none => false
          | some t => decide (k = weekdayName t.date.weekday) && isInterested r)
        (by intro s r
            rcases ht : parse_date r.date with _ | t
            · simp [stepD, step, ht]
            · simp only [stepD, step, ht]
              by_cases hA : k = weekdayName t.date.weekday <;>
                by_cases hB : isInterested r <;> simp [hA, hB]) hp
    · exact perm_count (fun s => (s.day_of_week k).live_answer)
        (fun r => match parse_date r.date with
          | none => false
          | some t => decide (k = weekdayName t.date.weekday) && isLiveAnswer r)
        (by intro s r
            rcases ht : parse_date r.date with _ | t
            · simp [stepD, step, ht]
            · simp only [stepD, step, ht]
              by_cases hA : k = weekdayName t.date.weekday <;>
                by_cases hB : isLiveAnswer r <;> simp [hA, hB]) hp
  · intro k
    refine ⟨?_, ?_, ?_, ?_, ?_, ?_⟩
    · exact perm_count (fun s => (s.campaigns k).total)
        (fun r => decide (k = campaignOf r))
        (by intro s r; simp only [stepD, step]
            by_cases hA : k = campaignOf r <;> simp [hA]) hp
    · exact perm_count (fun s => (s.campaigns k).interested)
        (fun r => decide (k = campaignOf r) && isInterested r)
        (by intro s r; simp only [stepD, step]
            by_cases hA : k = campaignOf r <;> by_cases hB : isInterested r <;>
              simp [hA, hB]) hp
    · exact perm_count (fun s => (s.campaigns k).answered)
        (fun r => decide (k = campaignOf r) && decide (r.status = "Answered"))
        (by intro s r; simp only [stepD, step]
            by_cases hA : k = campaignOf r <;> by_cases hB : r.status = "Answered" <;>
              simp [hA, hB]) hp
    · exact perm_count (fun s => (s.campaigns k).voicemail)
        (fun r => decide (k = campaignOf r) && isVoicemail r)
        (by intro s r; simp only [stepD, step]
            by_cases hA : k = campaignOf r <;> by_cases hB : isVoicemail r <;>
              simp [hA, hB]) hp
    · exact perm_count (fun s => (s.campaigns k).not_interested)
        (fun r => decide (k = campaignOf r) && decide (dispOf r = "Not Interested"))
        (by intro s r; simp only [stepD, step]
            by_cases hA : k = campaignOf r <;>
              by_cases hB : dispOf r = "Not Interested" <;> simp [hA, hB]) hp
    · exact perm_sum (fun s => (s.campaigns k).duration)
        (fun r => if k = campaignOf r then durOf r else 0)
        (by intro s r; simp only [stepD, step]
            by_cases hA : k = campaignOf r <;> simp [hA]) hp
  · intro k
    refine ⟨?_, ?_, ?_⟩
    · exact perm_count (fun s => (s.area_codes k).total)
        (fun r => decide (k = get_area_code r.to_number))
        (by intro s r; simp only [stepD, step]
            by_cases hA : k = get_area_code r.to_number <;> simp [hA]) hp
    · exact perm_count (fun s => (s.area_codes k).live_answer)
        (fun r => decide (k = get_area_code r.to_number) && isLiveAnswer r)
        (by intro s r; simp only [stepD, step]
            by_cases hA : k = get_area_code r.to_number <;>
              by_cases hB : isLiveAnswer r <;> simp [hA, hB]) hp
    · exact perm_count (fun s => (s.area_codes k).voicemail)
        (fun r => decide (k = get_area_code r.to_number) && isVoicemail r)
        (by intro s r; simp only [stepD, step]
            by_cases hA : k = get_area_code r.to_number <;>
              by_cases hB : isVoicemail r <;> simp [hA, hB]) hp
  · intro d
    refine ⟨?_, ?_, ?_⟩
    · exact perm_count (fun s => (s.daily d).total)
        (fun r => match parse_date r.date with
          | none => false
          | some t => decide (d = t.date))
        (by intro s r
            rcases ht : parse_date r.date with _ | t
            · simp [stepD, step, ht]
            · simp only [stepD, step, ht]
              by_cases hA : d = t.date <;> simp [hA]) hp
    · exact perm_count (fun s => (s.daily d).interested)
        (fun r => match parse_date r.date with
          | none => false
          | some t => decide (d = t.date) && isInterested r)
        (by intro s r
            rcases ht : parse_date r.date with _ | t
            · simp [stepD, step, ht]
            · simp only [stepD, step, ht]
              by_cases hA : d = t.date <;> by_cases hB : isInterested r <;>
                simp [hA, hB]) hp
    · exact perm_sum (fun s => (s.daily d).duration)
        (fun r => match parse_date r.date with
          | none => 0
          | some t => if d = t.date then durOf r else 0)
        (by intro s r
            rcases ht : parse_date r.date with _ | t
            · simp [stepD, step, ht]
            · simp only [stepD, step, ht]
              by_cases hA : d = t.date <;> simp [hA]) hp
  · intro a d
    exact perm_sum (fun s => (s.sessions a d).talk_time)
      (fun r => match parse_date r.date with
        | none => 0
        | some t => if a = r.agent ∧ d = t.date then durOf r else 0)
      (by intro s r
          rcases ht : parse_date r.date with _ | t
          · simp [stepD, step, ht]
          · simp only [stepD, step, ht]
            by_cases hc : a = r.agent ∧ d = t.date <;> simp [hc, updSession]) hp

/-- Claim C8 counterexample: two same-agent same-timestamp calls with
durations 10 and 20 seconds are a permutation of one another and give equal
(indeed empty) interested-leads lists, yet the stored last_call_duration is
10 in one order and 20 in the other — a snapshot component other than the
leads list differs under permutation. -/
theorem claim_C8_counterexample :
    List.Perm
      [(⟨"A", "X", "0:10", "Outgoing", "Answered", "S", "", "", "01/01/2024, 10:00 AM", "", ""⟩ : Row),
       ⟨"A", "X", "0:20", "Outgoing", "Answered", "S", "", "", "01/01/2024, 10:00 AM", "", ""⟩]
      [⟨"A", "X", "0:20", "Outgoing", "Answered", "S", "", "", "01/01/2024, 10:00 AM", "", ""⟩,
       ⟨"A", "X", "0:10", "Outgoing", "Answered", "S", "", "", "01/01/2024, 10:00 AM", "", ""⟩] ∧
    (processAll
      [⟨"A", "X", "0:10", "Outgoing", "Answered", "S", "", "", "01/01/2024, 10:00 AM", "", ""⟩,
       ⟨"A", "X", "0:20", "Outgoing", "Answered", "S", "", "", "01/01/2024, 10:00 AM", "", ""⟩]).interested_leads
      = (processAll
      [⟨"A", "X", "0:20", "Outgoing", "Answered", "S", "", "", "01/01/2024, 10:00 AM", "", ""⟩,
       ⟨"A", "X", "0:10", "Outgoing", "Answered", "S", "", "", "01/01/2024, 10:00 AM", "", ""⟩]).interested_leads ∧
    ((processAll
      [⟨"A", "X", "0:10", "Outgoing", "Answered", "S", "", "", "01/01/2024, 10:00 AM", "", ""⟩,
       ⟨"A", "X", "0:20", "Outgoing", "Answered", "S", "", "", "01/01/2024, 10:00 AM", "", ""⟩]).sessions "A" ⟨2024, 1, 1⟩).last_call_duration = 10 ∧
    ((processAll
      [⟨"A", "X", "0:20", "Outgoing", "Answered", "S", "", "", "01/01/2024, 10:00 AM", "", ""⟩,
       ⟨"A", "X", "0:10", "Outgoing", "Answered", "S", "", "", "01/01/2024, 10:00 AM", "", ""⟩]).sessions "A" ⟨2024, 1, 1⟩).last_call_duration = 20 := by
  exact ⟨by decide, by decide, by decide, by decide⟩

/-- Claim C8 witness: the scenario rows and their reversal agree on the
overall call count and Agent A's talk time. -/
theorem claim_C8_witness :
    (processAll scenarioRows).overall.total_calls
      = (processAll [rowB, rowA2, rowA1]).overall.total_calls ∧
    ((processAll scenarioRows).sessions "Agent A" ⟨2024, 1, 1⟩).talk_time
      = ((processAll [rowB, rowA2, rowA1]).sessions "Agent A" ⟨2024, 1, 1⟩).talk_time := by
  have h := claim_C8 scenarioRows [rowB, rowA2, rowA1] _ _
    (analyze_eq_processAll _ (by decide)) (analyze_eq_processAll _ (by decide))
    (by decide)
  exact ⟨h.1.1, (h.2.2.2.2.2.2.2.2.2.1) "Agent A" ⟨2024, 1, 1⟩⟩

end Kixxy
